import Mathlib

/-!
Shallow embedding of the booking-and-credit-ledger engine of the
tutoring-marketplace backend (routes/bookings.ts, routes/credits.ts,
routes/teacher.ts and the mongoose schemas models/ClassSession.ts,
models/Booking.ts, models/CreditTransaction.ts).

A MongoDB collection is a list of records; the transactional route
handlers become pure functions from a store to an outcome paired with
the post-state (business-rule failures and transaction aborts return
the pre-state, mirroring the early returns / rollback of
mongoSession.withTransaction).
-/

namespace GeorgeBackend

/-- models/ClassSession.ts: status enum ["open", "booked", "cancelled"]. -/
inductive SessionStatus
  | open_
  | booked
  | cancelled
deriving DecidableEq, Repr

/-- models/Booking.ts: status enum ["booked", "completed", "cancelled", "no_show"]. -/
inductive BookingStatus
  | booked
  | completed
  | cancelled
  | no_show
deriving DecidableEq, Repr

/-- models/CreditTransaction.ts: type enum
["purchase", "spend", "refund", "admin_adjust", "share_out", "share_in"]. -/
inductive CreditTxType
  | purchase
  | spend
  | refund
  | admin_adjust
  | share_out
  | share_in
deriving DecidableEq, Repr

/-- models/ClassSession.ts (ClassSessionSchema). Times are abstract ticks. -/
structure ClassSession where
  id : Nat
  teacherId : Nat
  startAt : Nat
  endAt : Nat
  status : SessionStatus
  priceCredits : Int
  meetingLink : String
deriving DecidableEq, Repr

/-- models/Booking.ts (BookingSchema). -/
structure Booking where
  id : Nat
  sessionId : Nat
  teacherId : Nat
  studentUserId : Nat
  status : BookingStatus
  priceCredits : Int
  creditTxId : Option Nat
  bookedAt : Nat
  cancelledAt : Option Nat
deriving DecidableEq, Repr

/-- models/CreditTransaction.ts (CreditTransactionSchema); the related
sub-document keeps only the booking/session correlation ids. -/
structure CreditTransaction where
  id : Nat
  userId : Nat
  type : CreditTxType
  amount : Int
  relatedBookingId : Option Nat
  relatedSessionId : Option Nat
deriving DecidableEq, Repr

/-- The three MongoDB collections the booking engine touches. -/
structure Store where
  sessions : List ClassSession
  bookings : List Booking
  ledger : List CreditTransaction
deriving DecidableEq, Repr

/-- The $match stage of the balance aggregation pipeline:
entries whose userId equals the given user. -/
def userTxs (l : List CreditTransaction) (uid : Nat) : List CreditTransaction :=
  l.filter (fun t => t.userId == uid)

/-- The $group / $sum stage over the matched entries. -/
def sumAmounts (l : List CreditTransaction) : Int :=
  (l.map (fun t => t.amount)).sum

/-- CreditTransactionModel.aggregate([$match userId, $group $sum amount]):
an empty match yields no group at all (agg[0] is undefined). -/
def aggregateBalance (l : List CreditTransaction) (uid : Nat) : Option Int :=
  if (userTxs l uid).isEmpty then none else some (sumAmounts (userTxs l uid))

/-- routes/credits.ts GET /balance: agg[0]?.balance ?? 0. -/
def getBalance (st : Store) (uid : Nat) : Int :=
  (aggregateBalance st.ledger uid).getD 0

/-- ClassSessionModel.findOne({ _id: sessionId, status: "open" }). -/
def findOpenSession (sessions : List ClassSession) (sid : Nat) : Option ClassSession :=
  sessions.find? (fun s => s.id == sid && s.status == SessionStatus.open_)

/-- Outcome of POST /bookings (routes/bookings.ts), as the result object the
handler builds: 409 "Session is not available", 402 "Not enough credits"
(with balance and required), 409 "Session already booked", the transaction
abort on the unique sessionId index of BookingSchema (surfaced by
asyncHandler as a 500), and the 201 created body. -/
inductive CreateOutcome
  | slotUnavailable
  | insufficientCredits (balance required : Int)
  | alreadyBooked
  | duplicateKeyAbort
  | created (b : Booking)
deriving DecidableEq, Repr

/-- The HTTP status each outcome is sent with. -/
def CreateOutcome.httpStatus : CreateOutcome → Nat
  | .slotUnavailable => 409
  | .insufficientCredits _ _ => 402
  | .alreadyBooked => 409
  | .duplicateKeyAbort => 500
  | .created _ => 201

/-- routes/bookings.ts POST "/" — the transactional part of the handler.
Fresh document ids bid (booking) and txid (spend entry) and the bookedAt
clock are parameters.  Mirrors, in order: findOne open session (else 409);
balance aggregation and check (else 402); conditional findOneAndUpdate
open→booked (else 409); BookingModel.create — which aborts the whole
transaction when another booking row (of any status) already holds the
unique sessionId index; CreditTransactionModel.create of the spend entry
amount -updated.priceCredits; linking creditTxId on the booking. -/
def createBooking (st : Store) (uid sid bid txid now : Nat) :
    CreateOutcome × Store :=
  match findOpenSession st.sessions sid with
  | none => (.slotUnavailable, st)
  | some classSession =>
    let balance := getBalance st uid
    if balance < classSession.priceCredits then
      (.insufficientCredits balance classSession.priceCredits, st)
    else
      match findOpenSession st.sessions sid with
      | none => (.alreadyBooked, st)
      | some updated0 =>
        let updated : ClassSession := { updated0 with status := SessionStatus.booked }
        let sessions1 := st.sessions.map (fun s =>
          if s.id == sid && s.status == SessionStatus.open_ then
            { s with status := SessionStatus.booked } else s)
        if st.bookings.any (fun b => b.sessionId == sid) then
          (.duplicateKeyAbort, st)
        else
          let tx : CreditTransaction :=
            { id := txid, userId := uid, type := CreditTxType.spend,
              amount := -updated.priceCredits,
              relatedBookingId := some bid, relatedSessionId := some updated.id }
          let bookingDoc : Booking :=
            { id := bid, sessionId := sid, teacherId := updated.teacherId,
              studentUserId := uid, status := BookingStatus.booked,
              priceCredits := updated.priceCredits, creditTxId := some txid,
              bookedAt := now, cancelledAt := none }
          (.created bookingDoc,
            { sessions := sessions1,
              bookings := st.bookings ++ [bookingDoc],
              ledger := st.ledger ++ [tx] })

/-- Outcome of POST /bookings/:id/cancel: 404 "Booking not found",
409 "Booking cannot be cancelled", 200 with ok true. -/
inductive CancelOutcome
  | notFound
  | invalidState
  | ok
deriving DecidableEq, Repr

/-- The HTTP status each cancel outcome is sent with. -/
def CancelOutcome.httpStatus : CancelOutcome → Nat
  | .notFound => 404
  | .invalidState => 409
  | .ok => 200

/-- routes/bookings.ts POST "/:id/cancel" — the transactional part.
Mirrors: findOne({ _id, studentUserId }) (else 404); status must be
"booked" (else 409); set status cancelled and cancelledAt; unconditional
updateOne re-opening the session; CreditTransactionModel.create of the
refund entry amount +booking.priceCredits. -/
def cancelBooking (st : Store) (uid bkid txid now : Nat) :
    CancelOutcome × Store :=
  match st.bookings.find? (fun b => b.id == bkid && b.studentUserId == uid) with
  | none => (.notFound, st)
  | some booking =>
    if booking.status ≠ BookingStatus.booked then (.invalidState, st)
    else
      let bookings1 := st.bookings.map (fun b =>
        if b.id == bkid then
          { b with status := BookingStatus.cancelled, cancelledAt := some now }
        else b)
      let sessions1 := st.sessions.map (fun s =>
        if s.id == booking.sessionId then { s with status := SessionStatus.open_ } else s)
      let tx : CreditTransaction :=
        { id := txid, userId := uid, type := CreditTxType.refund,
          amount := booking.priceCredits,
          relatedBookingId := some booking.id,
          relatedSessionId := some booking.sessionId }
      (.ok, { sessions := sessions1, bookings := bookings1,
              ledger := st.ledger ++ [tx] })

/-- Outcome of POST /credits/purchase: 400 invalid input, or 201 with the
re-aggregated balance. -/
inductive PurchaseOutcome
  | invalidInput
  | ok (balance : Int)
deriving DecidableEq, Repr

/-- routes/credits.ts PurchaseSchema: z.number().int().min(1).max(500).
JSON numbers are rationals; the int check is den = 1. -/
def purchaseValid (credits : ℚ) : Prop :=
  credits.den = 1 ∧ 1 ≤ credits ∧ credits ≤ 500

instance (credits : ℚ) : Decidable (purchaseValid credits) := by
  unfold purchaseValid; infer_instance

/-- routes/credits.ts POST /purchase: validate, insert one purchase entry of
amount credits, re-aggregate the balance for the response. -/
def purchase (st : Store) (uid : Nat) (credits : ℚ) (txid : Nat) :
    PurchaseOutcome × Store :=
  if purchaseValid credits then
    let tx : CreditTransaction :=
      { id := txid, userId := uid, type := CreditTxType.purchase,
        amount := credits.num, relatedBookingId := none, relatedSessionId := none }
    let st1 : Store := { st with ledger := st.ledger ++ [tx] }
    (.ok (getBalance st1 uid), st1)
  else (.invalidInput, st)

/-- Outcome of teacher.ts POST /bookings/:id/complete. -/
inductive CompleteOutcome
  | notFound
  | notBooked
  | ok
deriving DecidableEq, Repr

/-- routes/teacher.ts POST /bookings/:id/complete: findOne({ _id, teacherId })
(else 404); only "booked" can be completed (else 400); updateOne set
status "completed". -/
def completeBooking (st : Store) (tid bkid : Nat) : CompleteOutcome × Store :=
  match st.bookings.find? (fun b => b.id == bkid && b.teacherId == tid) with
  | none => (.notFound, st)
  | some booking =>
    if booking.status ≠ BookingStatus.booked then (.notBooked, st)
    else
      (.ok, { st with bookings := st.bookings.map (fun b =>
        if b.id == bkid && b.teacherId == tid then
          { b with status := BookingStatus.completed } else b) })

/-- routes/teacher.ts SessionPatchSchema: optional meetingLink, optional
status restricted by zod to "open" or "cancelled", optional priceCredits. -/
structure SessionPatch where
  meetingLink : Option String
  status : Option SessionStatus
  priceCredits : Option Int
deriving DecidableEq, Repr

/-- Apply a $set of the present patch fields to one session document. -/
def applyPatch (p : SessionPatch) (s : ClassSession) : ClassSession :=
  { s with
    meetingLink := p.meetingLink.getD s.meetingLink,
    status := p.status.getD s.status,
    priceCredits := p.priceCredits.getD s.priceCredits }

/-- routes/teacher.ts PATCH /sessions/:id:
ClassSessionModel.findOneAndUpdate({ _id, teacherId }, { $set: patch }). -/
def patchSession (st : Store) (tid sid : Nat) (p : SessionPatch) : Store :=
  { st with sessions := st.sessions.map (fun s =>
      if s.id == sid && s.teacherId == tid then applyPatch p s else s) }

/-- routes/teacher.ts POST /sessions: ClassSessionModel.create with
status "open". -/
def createSession (st : Store) (s : ClassSession) : Store :=
  { st with sessions := st.sessions ++ [s] }

/-- One step of the system: any of the store-writing operations of the
booking/credit routes. -/
inductive Step : Store → Store → Prop
  | create (st : Store) (uid sid bid txid now : Nat) :
      Step st (createBooking st uid sid bid txid now).2
  | cancel (st : Store) (uid bkid txid now : Nat) :
      Step st (cancelBooking st uid bkid txid now).2
  | buy (st : Store) (uid : Nat) (credits : ℚ) (txid : Nat) :
      Step st (purchase st uid credits txid).2
  | complete (st : Store) (tid bkid : Nat) :
      Step st (completeBooking st tid bkid).2
  | newSession (st : Store) (s : ClassSession) :
      s.status = SessionStatus.open_ → Step st (createSession st s)
  | patch (st : Store) (tid sid : Nat) (p : SessionPatch) :
      p.status ≠ some SessionStatus.booked → Step st (patchSession st tid sid p)

/-- Reachability from an initial store through route operations. -/
def Reachable (st0 st : Store) : Prop := Relation.ReflTransGen Step st0 st

/-- The unique index of BookingSchema on sessionId: any two booking rows
differ on sessionId. -/
def UniqueSessionIndex (st : Store) : Prop :=
  st.bookings.Pairwise (fun a b => a.sessionId ≠ b.sessionId)

/-- At most one active (non-cancelled) booking references a slot. -/
def AtMostOneActive (st : Store) : Prop :=
  st.bookings.Pairwise (fun a b =>
    a.status ≠ BookingStatus.cancelled → b.status ≠ BookingStatus.cancelled →
      a.sessionId ≠ b.sessionId)

/-! ### Ledger arithmetic helpers -/

theorem userTxs_append (l1 l2 : List CreditTransaction) (uid : Nat) :
    userTxs (l1 ++ l2) uid = userTxs l1 uid ++ userTxs l2 uid := by
  simp [userTxs, List.filter_append]

theorem sumAmounts_append (l1 l2 : List CreditTransaction) :
    sumAmounts (l1 ++ l2) = sumAmounts l1 + sumAmounts l2 := by
  simp [sumAmounts]

theorem getBalance_eq_sum (st : Store) (uid : Nat) :
    getBalance st uid = sumAmounts (userTxs st.ledger uid) := by
  unfold getBalance aggregateBalance
  by_cases h : (userTxs st.ledger uid).isEmpty
  · rw [List.isEmpty_iff] at h
    simp [h, sumAmounts]
  · simp [h]

theorem getBalance_ledger_append (st : Store) (l2 : List CreditTransaction) (uid : Nat) :
    getBalance { st with ledger := st.ledger ++ l2 } uid =
      getBalance st uid + sumAmounts (userTxs l2 uid) := by
  rw [getBalance_eq_sum, getBalance_eq_sum]
  show sumAmounts (userTxs (st.ledger ++ l2) uid) = _
  rw [userTxs_append, sumAmounts_append]

theorem userTxs_singleton (t : CreditTransaction) (uid : Nat) :
    userTxs [t] uid = if t.userId = uid then [t] else [] := by
  by_cases h : t.userId = uid
  · simp [userTxs, h]
  · have hb : (t.userId == uid) = false := by simp [h]
    simp [userTxs, List.filter, hb, h]

theorem sumAmounts_userTxs_singleton (t : CreditTransaction) (uid : Nat) :
    sumAmounts (userTxs [t] uid) = if t.userId = uid then t.amount else 0 := by
  rw [userTxs_singleton]
  by_cases h : t.userId = uid <;> simp [h, sumAmounts]

theorem getBalance_ledger_append_one (st : Store) (t : CreditTransaction) (uid : Nat) :
    getBalance { st with ledger := st.ledger ++ [t] } uid =
      getBalance st uid + (if t.userId = uid then t.amount else 0) := by
  rw [getBalance_ledger_append, sumAmounts_userTxs_singleton]

/-- getBalance reads only the ledger collection. -/
theorem getBalance_congr_ledger (st st' : Store) (uid : Nat)
    (h : st.ledger = st'.ledger) : getBalance st uid = getBalance st' uid := by
  unfold getBalance aggregateBalance userTxs
  rw [h]

/-! ### Branch equations for createBooking -/

theorem createBooking_no_open (st : Store) (uid sid bid txid now : Nat)
    (h : findOpenSession st.sessions sid = none) :
    createBooking st uid sid bid txid now = (CreateOutcome.slotUnavailable, st) := by
  simp [createBooking, h]

theorem createBooking_insufficient (st : Store) (uid sid bid txid now : Nat)
    (s : ClassSession) (hf : findOpenSession st.sessions sid = some s)
    (hb : getBalance st uid < s.priceCredits) :
    createBooking st uid sid bid txid now =
      (CreateOutcome.insufficientCredits (getBalance st uid) s.priceCredits, st) := by
  simp [createBooking, hf, hb]

theorem createBooking_dup_key (st : Store) (uid sid bid txid now : Nat)
    (s : ClassSession) (hf : findOpenSession st.sessions sid = some s)
    (hb : ¬ getBalance st uid < s.priceCredits)
    (hdup : st.bookings.any (fun b => b.sessionId == sid) = true) :
    createBooking st uid sid bid txid now = (CreateOutcome.duplicateKeyAbort, st) := by
  simp [createBooking, hf, hb, hdup]

/-- The booking row inserted by a successful createBooking. -/
def mkBooking (s : ClassSession) (uid sid bid txid now : Nat) : Booking :=
  { id := bid, sessionId := sid, teacherId := s.teacherId,
    studentUserId := uid, status := BookingStatus.booked,
    priceCredits := s.priceCredits, creditTxId := some txid,
    bookedAt := now, cancelledAt := none }

/-- The spend ledger entry inserted by a successful createBooking. -/
def mkSpendTx (s : ClassSession) (uid bid txid : Nat) : CreditTransaction :=
  { id := txid, userId := uid, type := CreditTxType.spend,
    amount := -s.priceCredits,
    relatedBookingId := some bid, relatedSessionId := some s.id }

theorem createBooking_success (st : Store) (uid sid bid txid now : Nat)
    (s : ClassSession) (hf : findOpenSession st.sessions sid = some s)
    (hb : ¬ getBalance st uid < s.priceCredits)
    (hdup : st.bookings.any (fun b => b.sessionId == sid) = false) :
    createBooking st uid sid bid txid now =
      (CreateOutcome.created (mkBooking s uid sid bid txid now),
       { sessions := st.sessions.map (fun x =>
            if x.id == sid && x.status == SessionStatus.open_ then
              { x with status := SessionStatus.booked } else x),
         bookings := st.bookings ++ [mkBooking s uid sid bid txid now],
         ledger := st.ledger ++ [mkSpendTx s uid bid txid] }) := by
  simp [createBooking, hf, hb, hdup, mkBooking, mkSpendTx]

/-- createBooking either leaves the store untouched or reports created. -/
theorem createBooking_snd_cases (st : Store) (uid sid bid txid now : Nat) :
    (createBooking st uid sid bid txid now).2 = st ∨
    ∃ b, (createBooking st uid sid bid txid now).1 = CreateOutcome.created b := by
  cases hf : findOpenSession st.sessions sid with
  | none => exact Or.inl (by rw [createBooking_no_open st uid sid bid txid now hf])
  | some s =>
    by_cases hb : getBalance st uid < s.priceCredits
    · exact Or.inl (by rw [createBooking_insufficient st uid sid bid txid now s hf hb])
    · cases hdup : st.bookings.any (fun b => b.sessionId == sid) with
      | true =>
        exact Or.inl (by rw [createBooking_dup_key st uid sid bid txid now s hf hb hdup])
      | false =>
        exact Or.inr ⟨mkBooking s uid sid bid txid now,
          by rw [createBooking_success st uid sid bid txid now s hf hb hdup]⟩

/-! ### Branch equations for cancelBooking -/

theorem cancelBooking_not_found (st : Store) (uid bkid txid now : Nat)
    (h : st.bookings.find? (fun b => b.id == bkid && b.studentUserId == uid) = none) :
    cancelBooking st uid bkid txid now = (CancelOutcome.notFound, st) := by
  simp [cancelBooking, h]

theorem cancelBooking_invalid_state (st : Store) (uid bkid txid now : Nat) (b : Booking)
    (hf : st.bookings.find? (fun x => x.id == bkid && x.studentUserId == uid) = some b)
    (hs : b.status ≠ BookingStatus.booked) :
    cancelBooking st uid bkid txid now = (CancelOutcome.invalidState, st) := by
  simp [cancelBooking, hf, hs]

/-- The refund ledger entry inserted by a successful cancelBooking. -/
def mkRefundTx (b : Booking) (uid txid : Nat) : CreditTransaction :=
  { id := txid, userId := uid, type := CreditTxType.refund,
    amount := b.priceCredits,
    relatedBookingId := some b.id, relatedSessionId := some b.sessionId }

theorem cancelBooking_success (st : Store) (uid bkid txid now : Nat) (b : Booking)
    (hf : st.bookings.find? (fun x => x.id == bkid && x.studentUserId == uid) = some b)
    (hs : b.status = BookingStatus.booked) :
    cancelBooking st uid bkid txid now =
      (CancelOutcome.ok,
       { sessions := st.sessions.map (fun s =>
            if s.id == b.sessionId then { s with status := SessionStatus.open_ } else s),
         bookings := st.bookings.map (fun x =>
            if x.id == bkid then
              { x with status := BookingStatus.cancelled, cancelledAt := some now }
            else x),
         ledger := st.ledger ++ [mkRefundTx b uid txid] }) := by
  simp [cancelBooking, hf, hs, mkRefundTx]

/-! ### State-shape case analyses for the step operations -/

theorem createBooking_state_cases (st : Store) (uid sid bid txid now : Nat) :
    (createBooking st uid sid bid txid now).2 = st ∨
    ∃ s, findOpenSession st.sessions sid = some s ∧
      st.bookings.any (fun b => b.sessionId == sid) = false ∧
      (createBooking st uid sid bid txid now).2 =
        { sessions := st.sessions.map (fun x =>
            if x.id == sid && x.status == SessionStatus.open_ then
              { x with status := SessionStatus.booked } else x),
          bookings := st.bookings ++ [mkBooking s uid sid bid txid now],
          ledger := st.ledger ++ [mkSpendTx s uid bid txid] } := by
  cases hf : findOpenSession st.sessions sid with
  | none => exact Or.inl (by rw [createBooking_no_open st uid sid bid txid now hf])
  | some s =>
    by_cases hb : getBalance st uid < s.priceCredits
    · exact Or.inl (by rw [createBooking_insufficient st uid sid bid txid now s hf hb])
    · cases hdup : st.bookings.any (fun b => b.sessionId == sid) with
      | true =>
        exact Or.inl (by rw [createBooking_dup_key st uid sid bid txid now s hf hb hdup])
      | false =>
        exact Or.inr ⟨s, rfl, rfl,
          by rw [createBooking_success st uid sid bid txid now s hf hb hdup]⟩

theorem cancelBooking_state_cases (st : Store) (uid bkid txid now : Nat) :
    (cancelBooking st uid bkid txid now).2 = st ∨
    ∃ b, st.bookings.find? (fun x => x.id == bkid && x.studentUserId == uid) = some b ∧
      (cancelBooking st uid bkid txid now).2 =
        { sessions := st.sessions.map (fun s =>
            if s.id == b.sessionId then { s with status := SessionStatus.open_ } else s),
          bookings := st.bookings.map (fun x =>
            if x.id == bkid then
              { x with status := BookingStatus.cancelled, cancelledAt := some now }
            else x),
          ledger := st.ledger ++ [mkRefundTx b uid txid] } := by
  cases hf : st.bookings.find? (fun x => x.id == bkid && x.studentUserId == uid) with
  | none => exact Or.inl (by rw [cancelBooking_not_found st uid bkid txid now hf])
  | some b =>
    by_cases hs : b.status = BookingStatus.booked
    · exact Or.inr ⟨b, rfl, by rw [cancelBooking_success st uid bkid txid now b hf hs]⟩
    · exact Or.inl (by rw [cancelBooking_invalid_state st uid bkid txid now b hf hs])

theorem completeBooking_state_cases (st : Store) (tid bkid : Nat) :
    (completeBooking st tid bkid).2 = st ∨
    (completeBooking st tid bkid).2 =
      { st with bookings := st.bookings.map (fun b =>
          if b.id == bkid && b.teacherId == tid then
            { b with status := BookingStatus.completed } else b) } := by
  unfold completeBooking
  cases hf : st.bookings.find? (fun b => b.id == bkid && b.teacherId == tid) with
  | none => exact Or.inl rfl
  | some b =>
    by_cases hs : b.status = BookingStatus.booked
    · exact Or.inr (by simp [hs])
    · exact Or.inl (by simp [hs])

theorem purchase_state_cases (st : Store) (uid : Nat) (credits : ℚ) (txid : Nat) :
    (purchase st uid credits txid).2 = st ∨
    (purchase st uid credits txid).2 =
      { st with ledger := st.ledger ++
          [{ id := txid, userId := uid, type := CreditTxType.purchase,
             amount := credits.num, relatedBookingId := none,
             relatedSessionId := none }] } := by
  unfold purchase
  by_cases h : purchaseValid credits
  · exact Or.inr (by simp [h])
  · exact Or.inl (by simp [h])

/-! ### Sample data used by the concrete witnesses -/

/-- An empty store. -/
def stEmpty : Store := { sessions := [], bookings := [], ledger := [] }

/-- An open slot, teacher 10, priced 5 credits. -/
def sessEx : ClassSession :=
  { id := 1, teacherId := 10, startAt := 100, endAt := 160,
    status := SessionStatus.open_, priceCredits := 5, meetingLink := "" }

/-- Student 20 holds exactly 5 credits; student 21 holds none. -/
def stEx : Store :=
  { sessions := [sessEx], bookings := [],
    ledger := [{ id := 1, userId := 20, type := CreditTxType.purchase,
                 amount := 5, relatedBookingId := none, relatedSessionId := none }] }

/-- Same ledger as stEx but no sessions (for the ledger-only-dependence part). -/
def stEx2 : Store :=
  { sessions := [], bookings := [],
    ledger := [{ id := 1, userId := 20, type := CreditTxType.purchase,
                 amount := 5, relatedBookingId := none, relatedSessionId := none }] }

/-! ### Claim theorems -/

/-- C8: GET /credits/balance returns exactly the sum of the signed amounts of
the ledger entries belonging to the user, returns 0 when the user has no
entries, and consults only the ledger collection (two stores with the same
ledger yield the same balance for every user — no separately stored mutable
balance field exists to consult). -/
theorem C8_balance_is_ledger_sum :
    (∀ st : Store, ∀ uid : Nat,
        getBalance st uid = sumAmounts (userTxs st.ledger uid)) ∧
    (∀ st : Store, ∀ uid : Nat,
        userTxs st.ledger uid = [] → getBalance st uid = 0) ∧
    (∀ st st' : Store, ∀ uid : Nat,
        st.ledger = st'.ledger → getBalance st uid = getBalance st' uid) := by
  refine ⟨getBalance_eq_sum, ?_, getBalance_congr_ledger⟩
  intro st uid h
  rw [getBalance_eq_sum, h]
  rfl

/-- Witness for C8 at concrete stores. -/
theorem C8_balance_witness :
    getBalance stEx 20 = sumAmounts (userTxs stEx.ledger 20) ∧
    getBalance stEmpty 7 = 0 ∧
    getBalance stEx 20 = getBalance stEx2 20 :=
  ⟨C8_balance_is_ledger_sum.1 stEx 20,
   C8_balance_is_ledger_sum.2.1 stEmpty 7 rfl,
   C8_balance_is_ledger_sum.2.2 stEx stEx2 20 rfl⟩

/-- C4: whenever POST /bookings fails with a business-rule error (409 slot
unavailable or 402 insufficient credits), the post-state equals the
pre-state: the slot status is unchanged, no booking row exists for the
attempt and no ledger entry was appended. -/
theorem C4_business_failure_no_partial_state (st : Store) (uid sid bid txid now : Nat)
    (h : (createBooking st uid sid bid txid now).1.httpStatus = 409 ∨
         (createBooking st uid sid bid txid now).1.httpStatus = 402) :
    (createBooking st uid sid bid txid now).2 = st := by
  rcases createBooking_snd_cases st uid sid bid txid now with h2 | ⟨b, hb⟩
  · exact h2
  · rw [hb] at h
    simp [CreateOutcome.httpStatus] at h

/-- Witness for C4: booking a nonexistent slot 409s and leaves the empty
store untouched. -/
theorem C4_business_failure_witness :
    (createBooking stEmpty 1 1 1 1 0).2 = stEmpty :=
  C4_business_failure_no_partial_state stEmpty 1 1 1 1 0 (Or.inl (by decide))

/-- C3: POST /bookings succeeds only when the ledger-derived balance is at
least the slot price; with the slot open and its unique-index slot free, a
balance exactly equal to the price succeeds (201); a balance strictly below
the price fails with 402 insufficient credits whose body reports the current
balance and the required amount, leaving the store unchanged. -/
theorem C3_balance_gate :
    (∀ st : Store, ∀ uid sid bid txid now : Nat, ∀ b : Booking, ∀ st' : Store,
        createBooking st uid sid bid txid now = (CreateOutcome.created b, st') →
        ∃ s ∈ st.sessions, s.id = sid ∧ s.status = SessionStatus.open_ ∧
          s.priceCredits ≤ getBalance st uid) ∧
    (∀ st : Store, ∀ uid sid bid txid now : Nat, ∀ s : ClassSession,
        findOpenSession st.sessions sid = some s →
        getBalance st uid = s.priceCredits →
        st.bookings.any (fun b => b.sessionId == sid) = false →
        (createBooking st uid sid bid txid now).1 =
          CreateOutcome.created (mkBooking s uid sid bid txid now) ∧
        (createBooking st uid sid bid txid now).1.httpStatus = 201) ∧
    (∀ st : Store, ∀ uid sid bid txid now : Nat, ∀ s : ClassSession,
        findOpenSession st.sessions sid = some s →
        getBalance st uid < s.priceCredits →
        createBooking st uid sid bid txid now =
          (CreateOutcome.insufficientCredits (getBalance st uid) s.priceCredits, st) ∧
        (createBooking st uid sid bid txid now).1.httpStatus = 402) := by
  refine ⟨?_, ?_, ?_⟩
  · intro st uid sid bid txid now b st' h
    cases hf : findOpenSession st.sessions sid with
    | none =>
      rw [createBooking_no_open st uid sid bid txid now hf] at h
      simp at h
    | some s =>
      by_cases hb : getBalance st uid < s.priceCredits
      · rw [createBooking_insufficient st uid sid bid txid now s hf hb] at h
        simp at h
      · have hf' : st.sessions.find?
            (fun x : ClassSession => x.id == sid && x.status == SessionStatus.open_) = some s := by
          simpa [findOpenSession] using hf
        have hp := List.find?_some hf'
        simp only [Bool.and_eq_true, beq_iff_eq] at hp
        exact ⟨s, List.mem_of_find?_eq_some hf', hp.1, hp.2, not_lt.mp hb⟩
  · intro st uid sid bid txid now s hf heq hdup
    have hb : ¬ getBalance st uid < s.priceCredits := by rw [heq]; exact lt_irrefl _
    rw [createBooking_success st uid sid bid txid now s hf hb hdup]
    exact ⟨rfl, rfl⟩
  · intro st uid sid bid txid now s hf hlt
    rw [createBooking_insufficient st uid sid bid txid now s hf hlt]
    exact ⟨rfl, rfl⟩

/-- Witness for C3: student 20 (balance 5) books the 5-credit slot exactly;
student 21 (balance 0) is refused with the correct shortfall report. -/
theorem C3_balance_gate_witness :
    (∃ s ∈ stEx.sessions, s.id = 1 ∧ s.status = SessionStatus.open_ ∧
        s.priceCredits ≤ getBalance stEx 20) ∧
    ((createBooking stEx 20 1 2 3 0).1 =
        CreateOutcome.created (mkBooking sessEx 20 1 2 3 0) ∧
     (createBooking stEx 20 1 2 3 0).1.httpStatus = 201) ∧
    (createBooking stEx 21 1 2 3 0 =
        (CreateOutcome.insufficientCredits (getBalance stEx 21) sessEx.priceCredits, stEx) ∧
     (createBooking stEx 21 1 2 3 0).1.httpStatus = 402) :=
  ⟨C3_balance_gate.1 stEx 20 1 2 3 0 (mkBooking sessEx 20 1 2 3 0)
      (createBooking stEx 20 1 2 3 0).2 (by decide),
   C3_balance_gate.2.1 stEx 20 1 2 3 0 sessEx (by decide) (by decide) (by decide),
   C3_balance_gate.2.2 stEx 21 1 2 3 0 sessEx (by decide) (by decide)⟩

/-- Updating booking rows in place (by _id) does not change which row a
find? on id and student matches, since the update keeps both fields. -/
theorem bookings_find_after_cancel (l : List Booking) (uid bkid now : Nat) (b : Booking)
    (hf : l.find? (fun x => x.id == bkid && x.studentUserId == uid) = some b) :
    (l.map (fun x =>
        if x.id == bkid then
          { x with status := BookingStatus.cancelled, cancelledAt := some now }
        else x)).find? (fun x => x.id == bkid && x.studentUserId == uid) =
      some { b with status := BookingStatus.cancelled, cancelledAt := some now } := by
  induction l with
  | nil => simp at hf
  | cons a t ih =>
    by_cases ha : ((fun x : Booking => x.id == bkid && x.studentUserId == uid) a) = true
    · rw [@List.find?_cons_of_pos _ (fun x : Booking => x.id == bkid && x.studentUserId == uid)
        a t ha] at hf
      injection hf with hb
      subst hb
      have h1 : (a.id == bkid) = true := by
        simp only [Bool.and_eq_true] at ha
        exact ha.1
      simp only [List.map_cons, h1, if_true]
      exact List.find?_cons_of_pos _ (by simpa using ha)
    · rw [@List.find?_cons_of_neg _ (fun x : Booking => x.id == bkid && x.studentUserId == uid)
        a t ha] at hf
      simp only [List.map_cons]
      by_cases h1 : (a.id == bkid) = true
      · rw [if_pos h1]
        rw [List.find?_cons_of_neg _ (by simpa using ha)]
        exact ih hf
      · rw [if_neg h1]
        rw [List.find?_cons_of_neg (List.map (fun x : Booking =>
          if (x.id == bkid) = true then
            { x with status := BookingStatus.cancelled, cancelledAt := some now }
          else x) t) ha]
        exact ih hf

/-- C6: POST /bookings/:id/cancel replies 404 when no booking matches the
id and the calling student, 409 when the matched booking is not in status
booked (in particular a second cancel of an already-cancelled booking), and
every such failure leaves the store exactly as it was. -/
theorem C6_cancel_guards :
    (∀ st : Store, ∀ uid bkid txid now : Nat,
        st.bookings.find? (fun x => x.id == bkid && x.studentUserId == uid) = none →
        cancelBooking st uid bkid txid now = (CancelOutcome.notFound, st) ∧
        CancelOutcome.httpStatus CancelOutcome.notFound = 404) ∧
    (∀ st : Store, ∀ uid bkid txid now : Nat, ∀ b : Booking,
        st.bookings.find? (fun x => x.id == bkid && x.studentUserId == uid) = some b →
        b.status ≠ BookingStatus.booked →
        cancelBooking st uid bkid txid now = (CancelOutcome.invalidState, st) ∧
        CancelOutcome.httpStatus CancelOutcome.invalidState = 409) ∧
    (∀ st : Store, ∀ uid bkid txid now txid2 now2 : Nat, ∀ b : Booking,
        st.bookings.find? (fun x => x.id == bkid && x.studentUserId == uid) = some b →
        b.status = BookingStatus.booked →
        cancelBooking (cancelBooking st uid bkid txid now).2 uid bkid txid2 now2 =
          (CancelOutcome.invalidState, (cancelBooking st uid bkid txid now).2)) := by
  refine ⟨?_, ?_, ?_⟩
  · intro st uid bkid txid now h
    exact ⟨cancelBooking_not_found st uid bkid txid now h, rfl⟩
  · intro st uid bkid txid now b hf hs
    exact ⟨cancelBooking_invalid_state st uid bkid txid now b hf hs, rfl⟩
  · intro st uid bkid txid now txid2 now2 b hf hs
    rw [cancelBooking_success st uid bkid txid now b hf hs]
    apply cancelBooking_invalid_state
    · exact bookings_find_after_cancel st.bookings uid bkid now b hf
    · simp

/-- The booking created in the witness scenario. -/
def bkEx : Booking := mkBooking sessEx 20 1 2 3 0

/-- The store after student 20 books slot 1 in stEx. -/
def stBk : Store := (createBooking stEx 20 1 2 3 0).2

/-- Witness for C6: cancelling in an empty store 404s; the second cancel of
the same booking 409s and changes nothing. -/
theorem C6_cancel_guards_witness :
    (cancelBooking stEmpty 1 9 9 9 = (CancelOutcome.notFound, stEmpty) ∧
     CancelOutcome.httpStatus CancelOutcome.notFound = 404) ∧
    (cancelBooking (cancelBooking stBk 20 2 4 1).2 20 2 5 2 =
      (CancelOutcome.invalidState, (cancelBooking stBk 20 2 4 1).2)) :=
  ⟨(C6_cancel_guards.1 stEmpty 1 9 9 9 rfl),
   C6_cancel_guards.2.2 stBk 20 2 4 1 5 2 bkEx (by decide) (by decide)⟩

/-- find? skips a prefix on which the predicate fails everywhere. -/
theorem find?_append_right {α : Type} (l1 l2 : List α) (p : α → Bool)
    (h : ∀ a ∈ l1, ¬ p a = true) : (l1 ++ l2).find? p = l2.find? p := by
  induction l1 with
  | nil => rfl
  | cons a t ih =>
    rw [List.cons_append, List.find?_cons_of_neg _ (h a (List.mem_cons_self a t))]
    exact ih (fun x hx => h x (List.mem_cons_of_mem a hx))

/-- A patch that only changes the price, as PATCH /sessions/:id sends when
the body carries just priceCredits. -/
def pricePatch (newPrice : Int) : SessionPatch :=
  { meetingLink := none, status := none, priceCredits := some newPrice }

/-- CreateBooking, then an arbitrary repricing of the slot by its teacher,
then CancelBooking of the new booking. -/
def bookRepriceCancel (st : Store) (uid sid bid txid txid2 now now2 tid : Nat)
    (newPrice : Int) : CancelOutcome × Store :=
  cancelBooking
    (patchSession (createBooking st uid sid bid txid now).2 tid sid (pricePatch newPrice))
    uid bid txid2 now2

/-- C2: for a student with sufficient balance and an open, index-free slot,
CreateBooking followed by CancelBooking (with any repricing of the slot in
between) cancels the booking, re-opens the slot, and restores the student
balance exactly: the refund entry carries +priceCredits recorded on the
booking, the exact negation of the debit entry, independent of newPrice. -/
theorem C2_round_trip (st : Store) (uid sid bid txid txid2 now now2 tid : Nat)
    (newPrice : Int) (s : ClassSession)
    (hf : findOpenSession st.sessions sid = some s)
    (hb : ¬ getBalance st uid < s.priceCredits)
    (hdup : st.bookings.any (fun b => b.sessionId == sid) = false)
    (hbid : ∀ b ∈ st.bookings, b.id ≠ bid) :
    (createBooking st uid sid bid txid now).1 =
      CreateOutcome.created (mkBooking s uid sid bid txid now) ∧
    (bookRepriceCancel st uid sid bid txid txid2 now now2 tid newPrice).1 =
      CancelOutcome.ok ∧
    (∀ x ∈ (bookRepriceCancel st uid sid bid txid txid2 now now2 tid newPrice).2.sessions,
        x.id = sid → x.status = SessionStatus.open_) ∧
    (∀ x ∈ (bookRepriceCancel st uid sid bid txid txid2 now now2 tid newPrice).2.bookings,
        x.id = bid → x.status = BookingStatus.cancelled) ∧
    getBalance (bookRepriceCancel st uid sid bid txid txid2 now now2 tid newPrice).2 uid =
      getBalance st uid ∧
    (bookRepriceCancel st uid sid bid txid txid2 now now2 tid newPrice).2.ledger =
      st.ledger ++ [mkSpendTx s uid bid txid] ++
        [mkRefundTx (mkBooking s uid sid bid txid now) uid txid2] ∧
    (mkRefundTx (mkBooking s uid sid bid txid now) uid txid2).amount = s.priceCredits ∧
    (mkSpendTx s uid bid txid).amount = -s.priceCredits := by
  have hcreate := createBooking_success st uid sid bid txid now s hf hb hdup
  have hfind : ((patchSession (createBooking st uid sid bid txid now).2 tid sid
      (pricePatch newPrice)).bookings).find?
      (fun x => x.id == bid && x.studentUserId == uid) =
      some (mkBooking s uid sid bid txid now) := by
    rw [hcreate]
    show (st.bookings ++ [mkBooking s uid sid bid txid now]).find? _ = _
    rw [find?_append_right]
    · simp [mkBooking]
    · intro a ha
      simp only [Bool.and_eq_true, beq_iff_eq, not_and]
      intro hid
      exact absurd hid (hbid a ha)
  have hcancel := cancelBooking_success
    (patchSession (createBooking st uid sid bid txid now).2 tid sid (pricePatch newPrice))
    uid bid txid2 now2 (mkBooking s uid sid bid txid now) hfind rfl
  refine ⟨by rw [hcreate], ?_, ?_, ?_, ?_, ?_, rfl, rfl⟩
  · show (cancelBooking _ uid bid txid2 now2).1 = CancelOutcome.ok
    rw [hcancel]
  · show ∀ x ∈ (cancelBooking _ uid bid txid2 now2).2.sessions, _
    rw [hcancel]
    intro x hx hxid
    simp only [List.mem_map] at hx
    obtain ⟨y, hy, hxy⟩ := hx
    by_cases hyid : (y.id == (mkBooking s uid sid bid txid now).sessionId) = true
    · rw [if_pos hyid] at hxy
      rw [← hxy]
    · rw [if_neg hyid] at hxy
      exfalso
      apply hyid
      rw [hxy]
      simpa [mkBooking] using hxid
  · show ∀ x ∈ (cancelBooking _ uid bid txid2 now2).2.bookings, _
    rw [hcancel]
    intro x hx hxid
    simp only [List.mem_map] at hx
    obtain ⟨y, hy, hxy⟩ := hx
    by_cases hyid : (y.id == bid) = true
    · rw [if_pos hyid] at hxy
      rw [← hxy]
    · rw [if_neg hyid] at hxy
      exfalso
      apply hyid
      rw [hxy]
      simpa using hxid
  · show getBalance (cancelBooking _ uid bid txid2 now2).2 uid = getBalance st uid
    rw [hcancel]
    rw [getBalance_eq_sum, getBalance_eq_sum]
    show sumAmounts (userTxs ((patchSession _ tid sid (pricePatch newPrice)).ledger ++ _) uid) = _
    rw [hcreate]
    show sumAmounts (userTxs ((st.ledger ++ [mkSpendTx s uid bid txid]) ++
      [mkRefundTx (mkBooking s uid sid bid txid now) uid txid2]) uid) = _
    rw [userTxs_append, userTxs_append, sumAmounts_append, sumAmounts_append,
      sumAmounts_userTxs_singleton, sumAmounts_userTxs_singleton]
    simp [mkSpendTx, mkRefundTx, mkBooking]
  · show (cancelBooking _ uid bid txid2 now2).2.ledger = _
    rw [hcancel]
    show (patchSession _ tid sid (pricePatch newPrice)).ledger ++ _ = _
    rw [hcreate]
    rfl

/-- Witness for C2 at the concrete stEx scenario, with the price patched
from 5 to 9 between booking and cancellation. -/
theorem C2_round_trip_witness :
    (createBooking stEx 20 1 2 3 0).1 =
      CreateOutcome.created (mkBooking sessEx 20 1 2 3 0) ∧
    (bookRepriceCancel stEx 20 1 2 3 4 0 1 10 9).1 = CancelOutcome.ok ∧
    (∀ x ∈ (bookRepriceCancel stEx 20 1 2 3 4 0 1 10 9).2.sessions,
        x.id = 1 → x.status = SessionStatus.open_) ∧
    (∀ x ∈ (bookRepriceCancel stEx 20 1 2 3 4 0 1 10 9).2.bookings,
        x.id = 2 → x.status = BookingStatus.cancelled) ∧
    getBalance (bookRepriceCancel stEx 20 1 2 3 4 0 1 10 9).2 20 = getBalance stEx 20 ∧
    (bookRepriceCancel stEx 20 1 2 3 4 0 1 10 9).2.ledger =
      stEx.ledger ++ [mkSpendTx sessEx 20 2 3] ++
        [mkRefundTx (mkBooking sessEx 20 1 2 3 0) 20 4] ∧
    (mkRefundTx (mkBooking sessEx 20 1 2 3 0) 20 4).amount = sessEx.priceCredits ∧
    (mkSpendTx sessEx 20 2 3).amount = -sessEx.priceCredits :=
  C2_round_trip stEx 20 1 2 3 4 0 1 10 9 sessEx rfl (by decide) rfl (by decide)

/-- Two members of a list that is pairwise distinct on a key and that agree
on the key are the same element. -/
theorem eq_of_mem_of_pairwise_ne {α : Type} (key : α → Nat) {l : List α}
    (hp : l.Pairwise (fun a b => key a ≠ key b))
    {x y : α} (hx : x ∈ l) (hy : y ∈ l) (hxy : key x = key y) : x = y := by
  induction l with
  | nil => cases hx
  | cons a t ih =>
    rw [List.pairwise_cons] at hp
    rcases List.mem_cons.mp hx with hxa | hx2
    · rcases List.mem_cons.mp hy with hya | hy2
      · rw [hxa, hya]
      · subst hxa
        exact absurd hxy (hp.1 y hy2)
    · rcases List.mem_cons.mp hy with hya | hy2
      · subst hya
        exact absurd hxy.symm (hp.1 x hx2)
      · exact ih hp.2 hx2 hy2

/-- Every route operation preserves the unique sessionId index over the
bookings collection. -/
theorem step_preserves_uniqueSessionIndex {st st' : Store} (h : Step st st')
    (hu : UniqueSessionIndex st) : UniqueSessionIndex st' := by
  cases h with
  | create uid sid bid txid now =>
    rcases createBooking_state_cases st uid sid bid txid now with he | ⟨s, hfn, hdup, he⟩
    · rw [he]; exact hu
    · rw [he]
      show (st.bookings ++ [mkBooking s uid sid bid txid now]).Pairwise _
      rw [List.pairwise_append]
      refine ⟨hu, List.pairwise_singleton _ _, ?_⟩
      intro a ha c hc
      simp only [List.mem_singleton] at hc
      subst hc
      have hd := List.any_eq_false.mp hdup a ha
      simp only [beq_iff_eq] at hd
      simpa [mkBooking] using hd
  | cancel uid bkid txid now =>
    rcases cancelBooking_state_cases st uid bkid txid now with he | ⟨b, hfb, he⟩
    · rw [he]; exact hu
    · rw [he]
      refine List.Pairwise.map _ (fun a c hac => ?_) hu
      by_cases h1 : (a.id == bkid) = true <;> by_cases h2 : (c.id == bkid) = true <;>
        simpa [h1, h2] using hac
  | buy uid credits txid =>
    rcases purchase_state_cases st uid credits txid with he | he
    · rw [he]; exact hu
    · rw [he]; exact hu
  | complete tid bkid =>
    rcases completeBooking_state_cases st tid bkid with he | he
    · rw [he]; exact hu
    · rw [he]
      refine List.Pairwise.map _ (fun a c hac => ?_) hu
      by_cases h1 : (a.id == bkid && a.teacherId == tid) = true <;>
        by_cases h2 : (c.id == bkid && c.teacherId == tid) = true <;>
          simpa [h1, h2] using hac
  | newSession s hs => exact hu
  | patch tid sid p hp => exact hu

/-- The unique sessionId index holds in every store reachable from a store
satisfying it. -/
theorem reachable_uniqueSessionIndex {st0 st : Store}
    (hu : UniqueSessionIndex st0) (hr : Reachable st0 st) : UniqueSessionIndex st := by
  induction hr with
  | refl => exact hu
  | tail hr1 hstep ih => exact step_preserves_uniqueSessionIndex hstep ih

/-- C1: at most one active (non-cancelled) booking references a slot.  The
open→booked transition happens only through the conditional update — for a
slot whose status is not open, createBooking replies 409 slot-unavailable
and writes nothing — and along every reachable trace the bookings
collection keeps at most one non-cancelled booking per slot. -/
theorem C1_slot_single_writer :
    (∀ st : Store, ∀ uid sid bid txid now : Nat,
        (∀ s ∈ st.sessions, s.id = sid → s.status ≠ SessionStatus.open_) →
        createBooking st uid sid bid txid now = (CreateOutcome.slotUnavailable, st) ∧
        CreateOutcome.httpStatus CreateOutcome.slotUnavailable = 409) ∧
    (∀ st : Store, ∀ uid sid bid txid now : Nat, ∀ b : Booking, ∀ st' : Store,
        st.sessions.Pairwise (fun a c => a.id ≠ c.id) →
        createBooking st uid sid bid txid now = (CreateOutcome.created b, st') →
        (∃ s ∈ st.sessions, s.id = sid ∧ s.status = SessionStatus.open_) ∧
        ∀ x ∈ st'.sessions, x.id = sid → x.status = SessionStatus.booked) ∧
    (∀ st0 st : Store, UniqueSessionIndex st0 → Reachable st0 st →
        AtMostOneActive st) := by
  refine ⟨?_, ?_, ?_⟩
  · intro st uid sid bid txid now h
    have hfn : findOpenSession st.sessions sid = none := by
      unfold findOpenSession
      rw [List.find?_eq_none]
      intro x hx
      simp only [Bool.and_eq_true, beq_iff_eq, not_and]
      intro hid
      have := h x hx hid
      simpa using this
    exact ⟨createBooking_no_open st uid sid bid txid now hfn, rfl⟩
  · intro st uid sid bid txid now b st' hpw h
    cases hfc : findOpenSession st.sessions sid with
    | none =>
      rw [createBooking_no_open st uid sid bid txid now hfc] at h
      simp at h
    | some s =>
      by_cases hblt : getBalance st uid < s.priceCredits
      · rw [createBooking_insufficient st uid sid bid txid now s hfc hblt] at h
        simp at h
      · cases hdup : st.bookings.any (fun x => x.sessionId == sid) with
        | true =>
          rw [createBooking_dup_key st uid sid bid txid now s hfc hblt hdup] at h
          simp at h
        | false =>
          rw [createBooking_success st uid sid bid txid now s hfc hblt hdup] at h
          rw [Prod.mk.injEq] at h
          obtain ⟨h1, h2⟩ := h
          have hf' : st.sessions.find?
              (fun x : ClassSession => x.id == sid && x.status == SessionStatus.open_) =
              some s := by simpa [findOpenSession] using hfc
          have hps := List.find?_some hf'
          simp only [Bool.and_eq_true, beq_iff_eq] at hps
          have hsmem := List.mem_of_find?_eq_some hf'
          refine ⟨⟨s, hsmem, hps.1, hps.2⟩, ?_⟩
          intro x hx hxid
          rw [← h2] at hx
          simp only [List.mem_map] at hx
          obtain ⟨y, hy, hxy⟩ := hx
          by_cases hcond : (y.id == sid && y.status == SessionStatus.open_) = true
          · rw [if_pos hcond] at hxy
            rw [← hxy]
          · rw [if_neg hcond] at hxy
            subst hxy
            have hyeq : y = s := by
              apply eq_of_mem_of_pairwise_ne (fun z : ClassSession => z.id) hpw hy hsmem
              rw [hxid, hps.1]
            exfalso
            apply hcond
            subst hyeq
            simp [hxid, hps.2]
  · intro st0 st hu hr
    have hq := reachable_uniqueSessionIndex hu hr
    exact List.Pairwise.imp (fun hne => fun _ _ => hne) hq

/-- Witness for C1: a booked slot rejects a second booking with 409 and no
change; a fresh booking in stEx transitions the open slot to booked; the
invariant holds along the trivial trace from stEx. -/
theorem C1_slot_single_writer_witness :
    (createBooking stBk 21 1 7 8 2 = (CreateOutcome.slotUnavailable, stBk) ∧
     CreateOutcome.httpStatus CreateOutcome.slotUnavailable = 409) ∧
    ((∃ s ∈ stEx.sessions, s.id = 1 ∧ s.status = SessionStatus.open_) ∧
     ∀ x ∈ (createBooking stEx 20 1 2 3 0).2.sessions,
        x.id = 1 → x.status = SessionStatus.booked) ∧
    AtMostOneActive stEx :=
  ⟨C1_slot_single_writer.1 stBk 21 1 7 8 2 (by decide),
   C1_slot_single_writer.2.1 stEx 20 1 2 3 0 (mkBooking sessEx 20 1 2 3 0)
     (createBooking stEx 20 1 2 3 0).2 (by decide) (by decide),
   C1_slot_single_writer.2.2 stEx stEx (List.Pairwise.nil) Relation.ReflTransGen.refl⟩

/-- The purchase ledger entry POST /credits/purchase inserts. -/
def mkPurchaseTx (uid txid : Nat) (credits : ℚ) : CreditTransaction :=
  { id := txid, userId := uid, type := CreditTxType.purchase,
    amount := credits.num, relatedBookingId := none, relatedSessionId := none }

/-- The four ledger-entry kinds named by the data-model section. -/
def SpecTxKind (t : CreditTransaction) : Prop :=
  t.type = CreditTxType.purchase ∨ t.type = CreditTxType.spend ∨
  t.type = CreditTxType.refund ∨ t.type = CreditTxType.admin_adjust

instance (t : CreditTransaction) : Decidable (SpecTxKind t) := by
  unfold SpecTxKind; infer_instance

/-- Any ledger entry a single route operation appends is a purchase, spend
or refund entry. -/
theorem step_ledger_kinds {st st' : Store} (h : Step st st') :
    ∀ t ∈ st'.ledger, t ∈ st.ledger ∨ SpecTxKind t := by
  cases h with
  | create uid sid bid txid now =>
    rcases createBooking_state_cases st uid sid bid txid now with he | ⟨s, hfn, hdup, he⟩
    · rw [he]; exact fun t ht => Or.inl ht
    · rw [he]
      intro t ht
      rcases List.mem_append.mp ht with h1 | h2
      · exact Or.inl h1
      · simp only [List.mem_singleton] at h2
        subst h2
        exact Or.inr (Or.inr (Or.inl rfl))
  | cancel uid bkid txid now =>
    rcases cancelBooking_state_cases st uid bkid txid now with he | ⟨b, hfb, he⟩
    · rw [he]; exact fun t ht => Or.inl ht
    · rw [he]
      intro t ht
      rcases List.mem_append.mp ht with h1 | h2
      · exact Or.inl h1
      · simp only [List.mem_singleton] at h2
        subst h2
        exact Or.inr (Or.inr (Or.inr (Or.inl rfl)))
  | buy uid credits txid =>
    rcases purchase_state_cases st uid credits txid with he | he
    · rw [he]; exact fun t ht => Or.inl ht
    · rw [he]
      intro t ht
      rcases List.mem_append.mp ht with h1 | h2
      · exact Or.inl h1
      · simp only [List.mem_singleton] at h2
        subst h2
        exact Or.inr (Or.inl rfl)
  | complete tid bkid =>
    rcases completeBooking_state_cases st tid bkid with he | he
    · rw [he]; exact fun t ht => Or.inl ht
    · rw [he]; exact fun t ht => Or.inl ht
  | newSession s hs => exact fun t ht => Or.inl ht
  | patch tid sid p hp => exact fun t ht => Or.inl ht

/-- C9: every ledger entry any operation of the system creates has kind in
the closed set purchase / spend / refund / admin_adjust, and along any
trace from a store whose ledger satisfies this, every ledger entry keeps a
kind in that set. -/
theorem C9_ledger_kinds_closed :
    (∀ st st' : Store, Step st st' →
        ∀ t ∈ st'.ledger, t ∈ st.ledger ∨ SpecTxKind t) ∧
    (∀ st0 st : Store, (∀ t ∈ st0.ledger, SpecTxKind t) → Reachable st0 st →
        ∀ t ∈ st.ledger, SpecTxKind t) := by
  refine ⟨fun st st' h => step_ledger_kinds h, ?_⟩
  intro st0 st h0 hr
  induction hr with
  | refl => exact h0
  | tail hr1 hstep ih =>
    intro t ht
    rcases step_ledger_kinds hstep t ht with hmem | hk
    · exact ih t hmem
    · exact hk

/-- Witness for C9: a concrete purchase step only appends entries of the
closed kind set, and the trivial trace from stEx keeps the property. -/
theorem C9_ledger_kinds_witness :
    (∀ t ∈ (purchase stEx 20 5 9).2.ledger, t ∈ stEx.ledger ∨ SpecTxKind t) ∧
    (∀ t ∈ stEx.ledger, SpecTxKind t) :=
  ⟨C9_ledger_kinds_closed.1 stEx (purchase stEx 20 5 9).2 (Step.buy stEx 20 5 9),
   C9_ledger_kinds_closed.2 stEx stEx (by decide) Relation.ReflTransGen.refl⟩

/-- C10: POST /credits/purchase accepts exactly the integer credit amounts
with 1 ≤ credits ≤ 500; on acceptance it appends exactly one purchase entry
of amount credits (positive), raising the buyer's balance by exactly that
amount; a purchase never lowers any balance. -/
theorem C10_purchase_spec :
    (∀ st : Store, ∀ uid : Nat, ∀ credits : ℚ, ∀ txid : Nat,
        (purchase st uid credits txid).1 = PurchaseOutcome.invalidInput ↔
          ¬ purchaseValid credits) ∧
    (∀ st : Store, ∀ uid : Nat, ∀ credits : ℚ, ∀ txid : Nat,
        purchaseValid credits →
        (purchase st uid credits txid).2.ledger =
          st.ledger ++ [mkPurchaseTx uid txid credits] ∧
        0 < credits.num ∧
        getBalance (purchase st uid credits txid).2 uid =
          getBalance st uid + credits.num) ∧
    (∀ st : Store, ∀ uid : Nat, ∀ credits : ℚ, ∀ txid : Nat, ∀ u : Nat,
        getBalance st u ≤ getBalance (purchase st uid credits txid).2 u) := by
  refine ⟨?_, ?_, ?_⟩
  · intro st uid credits txid
    by_cases h : purchaseValid credits
    · simp [purchase, h]
    · simp [purchase, h]
  · intro st uid credits txid h
    have he : (purchase st uid credits txid).2 =
        { st with ledger := st.ledger ++ [mkPurchaseTx uid txid credits] } := by
      simp [purchase, h, mkPurchaseTx]
    have hpos : 0 < credits.num := Rat.num_pos.mpr (lt_of_lt_of_le one_pos h.2.1)
    refine ⟨by rw [he], hpos, ?_⟩
    rw [he, getBalance_ledger_append_one]
    simp [mkPurchaseTx]
  · intro st uid credits txid u
    by_cases h : purchaseValid credits
    · have he : (purchase st uid credits txid).2 =
          { st with ledger := st.ledger ++ [mkPurchaseTx uid txid credits] } := by
        simp [purchase, h, mkPurchaseTx]
      have hpos : 0 < credits.num := Rat.num_pos.mpr (lt_of_lt_of_le one_pos h.2.1)
      rw [he, getBalance_ledger_append_one]
      show getBalance st u ≤ getBalance st u +
        (if (mkPurchaseTx uid txid credits).userId = u then
          (mkPurchaseTx uid txid credits).amount else 0)
      have : (0:Int) ≤ (if (mkPurchaseTx uid txid credits).userId = u then
          (mkPurchaseTx uid txid credits).amount else 0) := by
        split
        · simpa [mkPurchaseTx] using le_of_lt hpos
        · exact le_refl 0
      omega
    · have he : (purchase st uid credits txid).2 = st := by simp [purchase, h]
      rw [he]

/-- Witness for C10: buying 5 credits appends one +5 purchase entry and
raises student 20's balance from 5 to 10; a half-credit request is
rejected. -/
theorem C10_purchase_witness :
    ((purchase stEmpty 3 (1/2 : ℚ) 9).1 = PurchaseOutcome.invalidInput ↔
      ¬ purchaseValid (1/2 : ℚ)) ∧
    ((purchase stEx 20 5 9).2.ledger =
        stEx.ledger ++ [mkPurchaseTx 20 9 5] ∧
      0 < (5:ℚ).num ∧
      getBalance (purchase stEx 20 5 9).2 20 = getBalance stEx 20 + (5:ℚ).num) ∧
    getBalance stEx 20 ≤ getBalance (purchase stEx 20 5 9).2 20 :=
  ⟨C10_purchase_spec.1 stEmpty 3 (1/2 : ℚ) 9,
   C10_purchase_spec.2.1 stEx 20 5 9 (by decide),
   C10_purchase_spec.2.2 stEx 20 5 9 20⟩

/-! ### C5 scenario: rebooking a slot released by a cancellation -/

/-- One open slot priced 5; students 20 and 21 each hold 10 credits. -/
def stC5 : Store :=
  { sessions := [sessEx],
    bookings := [],
    ledger := [mkPurchaseTx 20 1 10, mkPurchaseTx 21 2 10] }

/-- After student 20 books slot 1. -/
def stC5b : Store := (createBooking stC5 20 1 100 101 0).2

/-- After student 20 cancels: slot 1 is open again. -/
def stC5c : Store := (cancelBooking stC5b 20 100 102 1).2

/-- C5 evaluated on the failing input: student 20 books slot 1 and cancels
(the cancellation re-opens the slot); student 21 holds 10 ≥ 5 credits, yet
createBooking for the re-opened slot runs into the unique sessionId index
of BookingSchema — the cancelled booking row still occupies the key — so
the insert aborts the transaction (surfaced as a 500 by asyncHandler) and
no new booking is created, instead of the 201 the rebookable-slot policy
promises. -/
theorem C5_rebook_blocked_by_unique_index :
    (cancelBooking stC5b 20 100 102 1).1 = CancelOutcome.ok ∧
    (∃ s ∈ stC5c.sessions, s.id = 1 ∧ s.status = SessionStatus.open_) ∧
    (5:Int) ≤ getBalance stC5c 21 ∧
    createBooking stC5c 21 1 103 104 2 = (CreateOutcome.duplicateKeyAbort, stC5c) ∧
    CreateOutcome.httpStatus CreateOutcome.duplicateKeyAbort = 500 := by
  decide

/-! ### C7: the post-commit, best-effort side-effect phase -/

/-- Outcome of the BBB create call as the route's catch logic classifies
it: success, the idNotUnique signature (meeting already exists, treated as
success of the idempotent creation), or any other error message. -/
inductive BbbCallResult
  | ok
  | idNotUnique
  | err (msg : String)
deriving DecidableEq, Repr

/-- Post-commit environment: whether BBB is configured, what the create
call does, whether inserting the teacher notification row fails (caught
inside persistAndNotify), and the resolved teacher user id. -/
structure SideEffectEnv where
  bbbConfigured : Bool
  bbbCall : BbbCallResult
  notifyPersistFails : Bool
  teacherUserId : Option Nat
deriving DecidableEq, Repr

/-- The bbb field the handler merges into the 201 body. -/
structure BbbField where
  created : Bool
  joinLink : Option String
  error : Option String
  reason : Option String
deriving DecidableEq, Repr

/-- routes/bookings.ts lines 221-304: the post-commit phase run only when
the transaction produced a 201. The BBB call sits in a try/catch: a real
error is recorded as a soft bbb.error field, idNotUnique counts as an
existing meeting, and success stores the join link on the session. The
notification step never alters the response: persistAndNotify catches its
own insert failures per user. The phase always keeps the 201 status. -/
def postCommit (env : SideEffectEnv) (st : Store) (bid : Nat) (joinLink : String) :
    (Nat × BbbField) × Store :=
  if env.bbbConfigured = false then
    ((201, { created := false, joinLink := none, error := none,
             reason := some "bbb_not_configured" }), st)
  else
    match st.bookings.find? (fun b => b.id == bid) with
    | none => ((201, { created := false, joinLink := none, error := none,
                       reason := some "booking_not_found" }), st)
    | some booking =>
      match st.sessions.find? (fun s => s.id == booking.sessionId) with
      | none => ((201, { created := false, joinLink := none, error := none,
                         reason := some "session_not_found" }), st)
      | some _ =>
        match env.bbbCall with
        | BbbCallResult.err msg =>
          ((201, { created := false, joinLink := none, error := some msg,
                   reason := none }), st)
        | BbbCallResult.ok =>
          ((201, { created := true, joinLink := some joinLink, error := none,
                   reason := none }),
           { st with sessions := st.sessions.map (fun s =>
               if s.id == booking.sessionId then { s with meetingLink := joinLink }
               else s) })
        | BbbCallResult.idNotUnique =>
          ((201, { created := false, joinLink := some joinLink, error := none,
                   reason := none }),
           { st with sessions := st.sessions.map (fun s =>
               if s.id == booking.sessionId then { s with meetingLink := joinLink }
               else s) })

/-- The full POST /bookings handler: the transaction, then the post-commit
phase when and only when the transaction replied 201. -/
def handleCreateBooking (env : SideEffectEnv) (st : Store)
    (uid sid bid txid now : Nat) (joinLink : String) :
    (Nat × Option BbbField) × Store :=
  match createBooking st uid sid bid txid now with
  | (CreateOutcome.created _, st1) =>
    (((postCommit env st1 bid joinLink).1.1,
      some (postCommit env st1 bid joinLink).1.2),
     (postCommit env st1 bid joinLink).2)
  | (out, st1) => ((CreateOutcome.httpStatus out, none), st1)

/-- The post-commit phase keeps the 201 status, never touches bookings or
ledger, and never changes a session's id, status or price (it may only
write the meeting link). -/
theorem postCommit_basic (env : SideEffectEnv) (st : Store) (bid : Nat)
    (joinLink : String) :
    (postCommit env st bid joinLink).1.1 = 201 ∧
    (postCommit env st bid joinLink).2.bookings = st.bookings ∧
    (postCommit env st bid joinLink).2.ledger = st.ledger ∧
    (∀ x ∈ (postCommit env st bid joinLink).2.sessions,
        ∃ y ∈ st.sessions, x.id = y.id ∧ x.status = y.status ∧
          x.priceCredits = y.priceCredits) := by
  unfold postCommit
  repeat' split
  all_goals
    first
    | exact ⟨rfl, rfl, rfl, fun x hx => ⟨x, hx, rfl, rfl, rfl⟩⟩
    | (refine ⟨rfl, rfl, rfl, ?_⟩
       intro x hx
       simp only [List.mem_map] at hx
       obtain ⟨y, hy, hxy⟩ := hx
       refine ⟨y, hy, ?_, ?_, ?_⟩ <;> (rw [← hxy]; split <;> rfl))

/-- In the configured case with the booking and session found, a failing
BBB call is recorded as the soft bbb.error field. -/
theorem postCommit_err (env : SideEffectEnv) (st : Store) (bid : Nat)
    (joinLink : String) (bk : Booking) (sess : ClassSession) (msg : String)
    (hcfg : env.bbbConfigured = true)
    (hfb : st.bookings.find? (fun x => x.id == bid) = some bk)
    (hfs : st.sessions.find? (fun s => s.id == bk.sessionId) = some sess)
    (herr : env.bbbCall = BbbCallResult.err msg) :
    (postCommit env st bid joinLink).1.2 =
      { created := false, joinLink := none, error := some msg, reason := none } := by
  unfold postCommit
  rw [if_neg (by simp [hcfg])]
  simp only [hfb, hfs, herr]

/-- C7: once the booking transaction has committed (201), no outcome of the
post-commit side effects changes the response away from 201 or reverses the
booking: bookings and ledger stay exactly as committed and session status
and price are untouched; a failing BBB call is attached only as the soft
bbb.error field of the still-successful response. -/
theorem C7_side_effects_never_reverse :
    (∀ env : SideEffectEnv, ∀ st : Store, ∀ uid sid bid txid now : Nat,
      ∀ joinLink : String, ∀ b : Booking, ∀ st1 : Store,
        createBooking st uid sid bid txid now = (CreateOutcome.created b, st1) →
        (handleCreateBooking env st uid sid bid txid now joinLink).1.1 = 201 ∧
        (handleCreateBooking env st uid sid bid txid now joinLink).2.bookings =
          st1.bookings ∧
        (handleCreateBooking env st uid sid bid txid now joinLink).2.ledger =
          st1.ledger ∧
        (∀ x ∈ (handleCreateBooking env st uid sid bid txid now joinLink).2.sessions,
            ∃ y ∈ st1.sessions, x.id = y.id ∧ x.status = y.status ∧
              x.priceCredits = y.priceCredits)) ∧
    (∀ env : SideEffectEnv, ∀ st : Store, ∀ uid sid bid txid now : Nat,
      ∀ joinLink : String, ∀ b : Booking, ∀ st1 : Store, ∀ bk : Booking,
      ∀ sess : ClassSession, ∀ msg : String,
        createBooking st uid sid bid txid now = (CreateOutcome.created b, st1) →
        env.bbbConfigured = true →
        st1.bookings.find? (fun x => x.id == bid) = some bk →
        st1.sessions.find? (fun s => s.id == bk.sessionId) = some sess →
        env.bbbCall = BbbCallResult.err msg →
        (handleCreateBooking env st uid sid bid txid now joinLink).1.2 =
          some { created := false, joinLink := none, error := some msg,
                 reason := none } ∧
        (handleCreateBooking env st uid sid bid txid now joinLink).1.1 = 201) := by
  constructor
  · intro env st uid sid bid txid now joinLink b st1 hc
    have hb := postCommit_basic env st1 bid joinLink
    simp only [handleCreateBooking, hc]
    exact ⟨hb.1, hb.2.1, hb.2.2.1, hb.2.2.2⟩
  · intro env st uid sid bid txid now joinLink b st1 bk sess msg hc hcfg hfb hfs herr
    have hb := postCommit_basic env st1 bid joinLink
    have he := postCommit_err env st1 bid joinLink bk sess msg hcfg hfb hfs herr
    simp only [handleCreateBooking, hc]
    exact ⟨by rw [he], hb.1⟩

/-- Environment in which the BBB call fails and the notification insert
fails too. -/
def envErr : SideEffectEnv :=
  { bbbConfigured := true, bbbCall := BbbCallResult.err "boom",
    notifyPersistFails := true, teacherUserId := some 99 }

/-- Witness for C7: with a failing BBB call and a failing notification
insert, the committed booking of stEx still answers 201, the stores stay
as committed, and the BBB failure shows up only as the soft error field. -/
theorem C7_side_effects_witness :
    ((handleCreateBooking envErr stEx 20 1 2 3 0 "link").1.1 = 201 ∧
     (handleCreateBooking envErr stEx 20 1 2 3 0 "link").2.bookings =
       stBk.bookings ∧
     (handleCreateBooking envErr stEx 20 1 2 3 0 "link").2.ledger = stBk.ledger ∧
     (∀ x ∈ (handleCreateBooking envErr stEx 20 1 2 3 0 "link").2.sessions,
        ∃ y ∈ stBk.sessions, x.id = y.id ∧ x.status = y.status ∧
          x.priceCredits = y.priceCredits)) ∧
    ((handleCreateBooking envErr stEx 20 1 2 3 0 "link").1.2 =
        some { created := false, joinLink := none, error := some "boom",
               reason := none } ∧
     (handleCreateBooking envErr stEx 20 1 2 3 0 "link").1.1 = 201) :=
  ⟨C7_side_effects_never_reverse.1 envErr stEx 20 1 2 3 0 "link"
     (mkBooking sessEx 20 1 2 3 0) stBk (by decide),
   C7_side_effects_never_reverse.2 envErr stEx 20 1 2 3 0 "link"
     (mkBooking sessEx 20 1 2 3 0) stBk bkEx
     { sessEx with status := SessionStatus.booked } "boom"
     (by decide) rfl (by decide) (by decide) rfl⟩

end GeorgeBackend
